import Mathlib

/-!
Verification of the driver-license verification scoring pipeline (src/app.py).

The pipeline is embedded shallowly:
* text is modelled as `List Char`; Python `str.lower`, `str.strip` and the
  substring operator `in` are modelled over ASCII by `pyLower`, `pyStrip`
  and `strContains`;
* the seven regular-expression searches of `calculate_safety_score` are
  modelled by small backtracking matchers (`matchDateStrictAt`, ...) run at
  every suffix of the text by `reSearch`, exactly mirroring `re.search`;
* similarity values are modelled as rationals, Python `int(x)` on the
  non-negative products is modelled by the floor function;
* face encodings are an abstract type and the collaborator function
  `face_recognition.face_distance` is an explicit parameter `dist` of
  `compare_faces`.
-/

/-- ASCII lower-casing of one character, as Python `str.lower` acts on the
ASCII range (app.py line 131 and line 344). -/
def toLowerPy (c : Char) : Char :=
  if c.isUpper then Char.ofNat (c.toNat + 32) else c

/-- Python `text.lower()` over the ASCII range. -/
def pyLower (s : List Char) : List Char :=
  s.map toLowerPy

/-- The ASCII whitespace characters recognised by Python `str.strip` and the
regex class `\s`. -/
def isSpacePy (c : Char) : Bool :=
  c == ' ' || c == '\t' || c == '\n' || c == '\r' || c == '\x0b' || c == '\x0c'

/-- Python `text.strip()` over the ASCII range (app.py line 183). -/
def pyStrip (s : List Char) : List Char :=
  ((s.dropWhile isSpacePy).reverse.dropWhile isSpacePy).reverse

/-- Whether the first list is a prefix of the second. -/
def listStartsWith : List Char → List Char → Bool
  | [], _ => true
  | _ :: _, [] => false
  | p :: ps, c :: cs => p == c && listStartsWith ps cs

/-- Python substring containment `pat in hay` (app.py lines 169, 193, 345). -/
def strContains (pat : List Char) : List Char → Bool
  | [] => listStartsWith pat []
  | c :: rest => listStartsWith pat (c :: rest) || strContains pat rest

/-- Unanchored regex search: run the matcher `m` at every suffix of the
text, as Python `re.search` does. -/
def reSearch (m : List Char → Bool) : List Char → Bool
  | [] => m []
  | c :: rest => m (c :: rest) || reSearch m rest

/-- Consume exactly `n` characters of the class `p`; return the rest of the
text, or `none` when the text does not start with `n` such characters. -/
def dropCls (p : Char → Bool) : Nat → List Char → Option (List Char)
  | 0, s => some s
  | _ + 1, [] => none
  | n + 1, c :: s => if p c then dropCls p n s else none

/-- Consume one expected literal character. -/
def expectChar (c : Char) : List Char → Option (List Char)
  | [] => none
  | d :: s => if d == c then some s else none

/-- All remainders of the text after consuming zero or more leading
whitespace characters: the choices of the regex piece `\s*`. -/
def wsSuffs : List Char → List (List Char)
  | [] => [[]]
  | c :: s => if isSpacePy c then (c :: s) :: wsSuffs s else [c :: s]

/-- All remainders of the text after consuming one or more leading
characters of class `p`: the choices of a regex piece such as `[a-z]+`. -/
def clsPlusSuffs (p : Char → Bool) : List Char → List (List Char)
  | [] => []
  | c :: s => if p c then s :: clsPlusSuffs p s else []

/-- Matcher for `\d{2}/\d{2}/\d{4}` at the start of the text
(app.py line 173). -/
def matchDateStrictAt (s : List Char) : Bool :=
  (((((dropCls Char.isDigit 2 s).bind (expectChar '/')).bind
    (dropCls Char.isDigit 2)).bind (expectChar '/')).bind
    (dropCls Char.isDigit 4)).isSome

/-- Matcher for `\d{1,2}/\d{1,2}/\d{2,4}` at the start of the text
(app.py line 175). -/
def matchDateLooseAt (s : List Char) : Bool :=
  [1, 2].any fun a => [1, 2].any fun b => [2, 3, 4].any fun c =>
    (((((dropCls Char.isDigit a s).bind (expectChar '/')).bind
      (dropCls Char.isDigit b)).bind (expectChar '/')).bind
      (dropCls Char.isDigit c)).isSome

/-- Matcher for `[A-Z]{2}\s*\d{6,8}` at the start of the text
(app.py line 177). -/
def matchLicStrictAt (s : List Char) : Bool :=
  match dropCls Char.isUpper 2 s with
  | none => false
  | some s1 => (wsSuffs s1).any fun s2 =>
      [6, 7, 8].any fun n => (dropCls Char.isDigit n s2).isSome

/-- Matcher for `[A-Z]{1,3}\s*\d{4,10}` at the start of the text
(app.py line 179). -/
def matchLicLooseAt (s : List Char) : Bool :=
  [1, 2, 3].any fun a =>
    match dropCls Char.isUpper a s with
    | none => false
    | some s1 => (wsSuffs s1).any fun s2 =>
        [4, 5, 6, 7, 8, 9, 10].any fun n => (dropCls Char.isDigit n s2).isSome

/-- Matcher for `[A-Z]{2,3}` at the start of the text (app.py line 181). -/
def matchUpper23At (s : List Char) : Bool :=
  [2, 3].any fun a => (dropCls Char.isUpper a s).isSome

/-- Matcher for `[A-Z][a-z]+` at the start of the text (app.py line 187). -/
def matchCapWordAt : List Char → Bool
  | [] => false
  | c :: s => c.isUpper && !(clsPlusSuffs Char.isLower s).isEmpty

/-- Matcher for `[A-Z][a-z]+\s+[A-Z][a-z]+` at the start of the text
(app.py line 185). -/
def matchNameFullAt : List Char → Bool
  | [] => false
  | c :: s =>
    c.isUpper && (clsPlusSuffs Char.isLower s).any fun s1 =>
      (clsPlusSuffs isSpacePy s1).any fun s2 =>
        match s2 with
        | [] => false
        | d :: s3 => d.isUpper && !(clsPlusSuffs Char.isLower s3).isEmpty

/-- The keyword/point table of `calculate_safety_score`
(app.py lines 155-166). -/
def license_keywords : List (List Char × ℤ) :=
  [("driver".data, 2), ("license".data, 2), ("identification".data, 2),
   ("state".data, 1), ("dmv".data, 2), ("department".data, 1),
   ("motor".data, 1), ("vehicle".data, 1), ("id".data, 2), ("card".data, 1)]

/-- Stage 2 of the scorer: keyword points accumulated over the lower-cased
text (app.py lines 168-170). -/
def keywordPoints (text_lower : List Char) : ℤ :=
  license_keywords.foldl
    (fun sc kp => if strContains kp.1 text_lower then sc + kp.2 else sc) 0

/-- Stage 3 of the scorer: text-quality points over the raw text
(app.py lines 172-188). -/
def textQualityPoints (text : List Char) : ℤ :=
  (if reSearch matchDateStrictAt text then 2
   else if reSearch matchDateLooseAt text then 1 else 0)
  + (if reSearch matchLicStrictAt text then 2
     else if reSearch matchLicLooseAt text then 1 else 0)
  + (if reSearch matchUpper23At text then 1 else 0)
  + (if (pyStrip text).length > 20 then 1 else 0)
  + (if reSearch matchNameFullAt text then 1
     else if reSearch matchCapWordAt text then 1 else 0)

/-- The confidence-field table of `calculate_safety_score`
(app.py line 191). -/
def license_fields : List (List Char) :=
  ["expires".data, "issued".data, "class".data, "restrictions".data,
   "endorsements".data, "date".data, "birth".data, "address".data,
   "height".data, "weight".data, "eyes".data, "hair".data]

/-- Stage 4 of the scorer: confidence-field points over the lower-cased
text (app.py lines 190-194). -/
def confidencePoints (text_lower : List Char) : ℤ :=
  license_fields.foldl
    (fun sc f => if strContains f text_lower then sc + 1 else sc) 0

/-- Stage 1 of the scorer: the face-match base and bonus
(app.py lines 130-152).  Python `int` on the non-negative products is the
floor. -/
def faceBase (is_license : Bool) (face_match_score : ℚ) : ℤ :=
  if face_match_score > 2/5 then 70 + ⌊face_match_score * 20⌋
  else if face_match_score > 1/5 then 50 + ⌊face_match_score * 15⌋
  else if is_license then 40 else 20

/-- The safety scorer `calculate_safety_score` (app.py lines 125-204): the
sequential accumulation of the four stages followed by the clamp
`score = max(min(score, 100), 0)`. -/
def calculate_safety_score (text : List Char) (is_license : Bool)
    (face_match_score : ℚ) : ℤ :=
  max (min (faceBase is_license face_match_score
    + keywordPoints (pyLower text)
    + textQualityPoints text
    + confidencePoints (pyLower text)) 100) 0

/-- `get_safety_status` (app.py lines 206-221). -/
def get_safety_status (score : ℤ) : String :=
  if score ≥ 80 then "very_safe"
  else if score ≥ 60 then "safe"
  else if score ≥ 40 then "moderate"
  else if score ≥ 25 then "risky"
  else if score ≥ 10 then "unsafe"
  else "rejected"

/-- `get_confidence_level` (app.py lines 223-238). -/
def get_confidence_level (score : ℤ) : String :=
  if score ≥ 80 then "very_high"
  else if score ≥ 60 then "high"
  else if score ≥ 40 then "medium"
  else if score ≥ 25 then "low"
  else if score ≥ 10 then "very_low"
  else "minimal"

/-- `compare_faces` (app.py lines 95-123): short-circuit on an empty
encoding set, otherwise a nested loop keeping the best similarity among
pairs within the fixed tolerance 0.6.  The collaborator distance function
is the parameter `dist`. -/
def compare_faces {α : Type} (dist : α → α → ℚ)
    (license_encodings user_encodings : List α) : ℚ :=
  if license_encodings.isEmpty || user_encodings.isEmpty then 0
  else
    license_encodings.foldl
      (fun best le => user_encodings.foldl
        (fun best ue =>
          if dist le ue ≤ 3/5 then
            (if max 0 (1 - dist le ue) > best then max 0 (1 - dist le ue)
             else best)
          else best) best) 0

/-- Modelled from the spec: the similarities `max(0, 1 - distance)` of all
pairs `(a, b)` with `a` in the first set against one fixed `a`, keeping only
pairs whose distance is within the tolerance 0.6. -/
def pairSims {α : Type} (dist : α → α → ℚ) (a : α) : List α → List ℚ
  | [] => []
  | b :: B =>
    if dist a b ≤ 3/5 then max 0 (1 - dist a b) :: pairSims dist a B
    else pairSims dist a B

/-- Modelled from the spec: the similarities of all matching pairs across
the two sets, in loop order. -/
def matchSims {α : Type} (dist : α → α → ℚ) : List α → List α → List ℚ
  | [], _ => []
  | a :: A, B => pairSims dist a B ++ matchSims dist A B

/-- The keyword list of the document-plausibility check in the `/ocr`
handler (app.py line 343). -/
def ocr_license_keywords : List (List Char) :=
  ["license".data, "driver".data, "id".data, "identification".data,
   "state".data, "dmv".data, "department".data]

/-- The document-plausibility classifier: `is_license` as computed in the
`/ocr` handler (app.py lines 343-345). -/
def is_document (text : List Char) : Bool :=
  ocr_license_keywords.any fun k => strContains k (pyLower text)

/-- The `base_license_score` component of the response `score_breakdown`
(app.py line 392). -/
def breakdown_base_license_score (is_license : Bool) : ℤ :=
  if is_license then 70 else 55

/-- The `face_match_score` component of the response `score_breakdown`
(app.py line 393). -/
def breakdown_face_match_score (face_match_score : ℚ) : ℤ :=
  ⌊face_match_score * 15⌋

/-- The `keyword_matches` component of the response `score_breakdown`
(app.py line 394). -/
def breakdown_keyword_matches (text_lower : List Char) : ℤ :=
  (if strContains ("driver".data) text_lower then 2 else 0)
  + (if strContains ("license".data) text_lower then 2 else 0)
  + (if strContains ("identification".data) text_lower then 2 else 0)
  + (if strContains ("state".data) text_lower then 1 else 0)
  + (if strContains ("dmv".data) text_lower then 2 else 0)
  + (if strContains ("department".data) text_lower then 1 else 0)
  + (if strContains ("motor".data) text_lower then 1 else 0)
  + (if strContains ("vehicle".data) text_lower then 1 else 0)
  + (if strContains ("id".data) text_lower then 2 else 0)
  + (if strContains ("card".data) text_lower then 1 else 0)

/-- The `text_quality` component of the response `score_breakdown`
(app.py line 395).  Unlike the scorer it adds the strict and loose variants
independently and uses the length threshold 5. -/
def breakdown_text_quality (text : List Char) : ℤ :=
  (if reSearch matchDateStrictAt text then 2 else 0)
  + (if reSearch matchDateLooseAt text then 1 else 0)
  + (if reSearch matchLicStrictAt text then 2 else 0)
  + (if reSearch matchLicLooseAt text then 1 else 0)
  + (if reSearch matchUpper23At text then 1 else 0)
  + (if (pyStrip text).length > 5 then 1 else 0)
  + (if reSearch matchNameFullAt text then 1 else 0)
  + (if reSearch matchCapWordAt text then 1 else 0)

/-- The `confidence_indicators` component of the response `score_breakdown`
(app.py line 396). -/
def breakdown_confidence_indicators (text_lower : List Char) : ℤ :=
  license_fields.foldl
    (fun sc f => if strContains f text_lower then sc + 1 else sc) 0

/-- The sum of all components of the response `score_breakdown`
(app.py lines 391-397). -/
def score_breakdown_total (text : List Char) (is_license : Bool)
    (face_match_score : ℚ) : ℤ :=
  breakdown_base_license_score is_license
  + breakdown_face_match_score face_match_score
  + breakdown_keyword_matches (pyLower text)
  + breakdown_text_quality text
  + breakdown_confidence_indicators (pyLower text)

/-- Modelled from the spec: the Stage 1 tier table written exactly as the
claim states it, with explicitly mutually exclusive ranges. -/
def faceBaseSpec (is_document_flag : Bool) (s : ℚ) : ℤ :=
  if 2/5 < s then 70 + ⌊s * 20⌋
  else if 1/5 < s ∧ s ≤ 2/5 then 50 + ⌊s * 15⌋
  else if is_document_flag then 40 else 20

/-- Numeric rank of a safety-status label, in the order of the bands. -/
def statusRank (st : String) : ℕ :=
  if st = "rejected" then 0
  else if st = "unsafe" then 1
  else if st = "risky" then 2
  else if st = "moderate" then 3
  else if st = "safe" then 4
  else 5

/-- Numeric rank of a confidence label, in the order of the bands. -/
def confidenceRank (cl : String) : ℕ :=
  if cl = "minimal" then 0
  else if cl = "very_low" then 1
  else if cl = "low" then 2
  else if cl = "medium" then 3
  else if cl = "high" then 4
  else 5

/-- The literal text of Scenario B of the spec. -/
def scenarioBText : List Char :=
  "driver license state dmv department".data

/-! ## Helper lemmas -/

/-- If the factor exceeds 2/5 then the bonus floor is at least 8. -/
lemma floor20_ge (s : ℚ) (h : 2/5 < s) : (8 : ℤ) ≤ ⌊s * 20⌋ :=
  Int.le_floor.mpr (by push_cast; linarith)

/-- If the factor exceeds 1/5 then the bonus floor is at least 3. -/
lemma floor15_ge (s : ℚ) (h : 1/5 < s) : (3 : ℤ) ≤ ⌊s * 15⌋ :=
  Int.le_floor.mpr (by push_cast; linarith)

/-- If the factor is at most 2/5 then the bonus floor is at most 6. -/
lemma floor15_le (s : ℚ) (h : s ≤ 2/5) : ⌊s * 15⌋ ≤ 6 := by
  have h2 : (⌊s * 15⌋ : ℚ) ≤ s * 15 := Int.floor_le _
  have h3 : s * 15 ≤ 6 := by linarith
  exact_mod_cast le_trans h2 h3

/-- The Stage 1 base is monotone non-decreasing in the similarity. -/
lemma faceBase_mono (d : Bool) (s1 s2 : ℚ) (h : s1 ≤ s2) :
    faceBase d s1 ≤ faceBase d s2 := by
  rcases lt_or_le (2/5 : ℚ) s1 with h1 | h1
  · have h2 : (2/5 : ℚ) < s2 := lt_of_lt_of_le h1 h
    unfold faceBase
    rw [if_pos h1, if_pos h2]
    have := Int.floor_mono (show s1 * 20 ≤ s2 * 20 by linarith)
    linarith
  · rcases lt_or_le (1/5 : ℚ) s1 with h2 | h2
    · rcases lt_or_le (2/5 : ℚ) s2 with h3 | h3
      · unfold faceBase
        rw [if_neg (not_lt.mpr h1), if_pos h2, if_pos h3]
        have e1 := floor15_le s1 h1
        have e2 := floor20_ge s2 h3
        linarith
      · have h4 : (1/5 : ℚ) < s2 := lt_of_lt_of_le h2 h
        unfold faceBase
        rw [if_neg (not_lt.mpr h1), if_neg (not_lt.mpr h3), if_pos h2,
          if_pos h4]
        have := Int.floor_mono (show s1 * 15 ≤ s2 * 15 by linarith)
        linarith
    · rcases lt_or_le (2/5 : ℚ) s2 with h3 | h3
      · unfold faceBase
        rw [if_neg (not_lt.mpr h1), if_neg (not_lt.mpr h2), if_pos h3]
        have := floor20_ge s2 h3
        split_ifs <;> linarith
      · rcases lt_or_le (1/5 : ℚ) s2 with h4 | h4
        · unfold faceBase
          rw [if_neg (not_lt.mpr h1), if_neg (not_lt.mpr h2),
            if_neg (not_lt.mpr h3), if_pos h4]
          have := floor15_ge s2 h4
          split_ifs <;> linarith
        · unfold faceBase
          rw [if_neg (not_lt.mpr h1), if_neg (not_lt.mpr h2),
            if_neg (not_lt.mpr h3), if_neg (not_lt.mpr h4)]
/-- The Stage 1 base is at least 20 for every similarity value. -/
lemma faceBase_ge (d : Bool) (s : ℚ) : 20 ≤ faceBase d s := by
  unfold faceBase
  split_ifs with h1 h2 h3
  · have := floor20_ge s h1
    linarith
  · have := floor15_ge s h2
    linarith
  · norm_num
  · norm_num

/-- A fold that conditionally adds non-negative amounts never decreases its
accumulator. -/
lemma foldl_add_if_le {β : Type} (f : β → Bool) (g : β → ℤ) :
    ∀ (l : List β) (init : ℤ), (∀ b ∈ l, 0 ≤ g b) →
      init ≤ l.foldl (fun sc b => if f b then sc + g b else sc) init := by
  intro l
  induction l with
  | nil => intro init _; exact le_refl init
  | cons b l ih =>
    intro init h
    have hb : 0 ≤ g b := h b (List.mem_cons_self b l)
    have h2 : ∀ x ∈ l, 0 ≤ g x := fun x hx => h x (List.mem_cons_of_mem b hx)
    have step : init ≤ if f b then init + g b else init := by
      split_ifs <;> linarith
    rw [List.foldl_cons]
    exact le_trans step (ih _ h2)

/-- Stage 2 contributes a non-negative number of points. -/
lemma keywordPoints_nonneg (tl : List Char) : 0 ≤ keywordPoints tl := by
  unfold keywordPoints
  exact foldl_add_if_le (fun kp => strContains kp.1 tl) (fun kp => kp.2)
    license_keywords 0 (by decide)

/-- Stage 3 contributes a non-negative number of points. -/
lemma textQualityPoints_nonneg (t : List Char) : 0 ≤ textQualityPoints t := by
  unfold textQualityPoints
  split_ifs <;> norm_num

/-- Stage 4 contributes a non-negative number of points. -/
lemma confidencePoints_nonneg (tl : List Char) : 0 ≤ confidencePoints tl := by
  unfold confidencePoints
  exact foldl_add_if_le (fun f => strContains f tl) (fun _ => 1)
    license_fields 0 (by decide)

/-- A score of at least 10 is never mapped to the rejected status. -/
lemma status_ne_rejected (x : ℤ) (h : 10 ≤ x) :
    get_safety_status x ≠ "rejected" := by
  unfold get_safety_status
  split_ifs <;> first | decide | (exfalso; omega)

/-- A score of at least 10 is never mapped to the minimal confidence. -/
lemma confidence_ne_minimal (x : ℤ) (h : 10 ≤ x) :
    get_confidence_level x ≠ "minimal" := by
  unfold get_confidence_level
  split_ifs <;> first | decide | (exfalso; omega)

/-- The status rank as a direct function of the score thresholds. -/
lemma statusRank_get (x : ℤ) :
    statusRank (get_safety_status x) =
      if x ≥ 80 then 5 else if x ≥ 60 then 4 else if x ≥ 40 then 3
      else if x ≥ 25 then 2 else if x ≥ 10 then 1 else 0 := by
  unfold get_safety_status
  split_ifs <;> decide

/-- The confidence rank as a direct function of the score thresholds. -/
lemma confidenceRank_get (x : ℤ) :
    confidenceRank (get_confidence_level x) =
      if x ≥ 80 then 5 else if x ≥ 60 then 4 else if x ≥ 40 then 3
      else if x ≥ 25 then 2 else if x ≥ 10 then 1 else 0 := by
  unfold get_confidence_level
  split_ifs <;> decide

/-- The larger-of-two update of the comparison loop is the binary maximum. -/
lemma ifGtMax (x y : ℚ) : (if x > y then x else y) = max y x := by
  rcases le_or_lt x y with h | h
  · rw [if_neg (not_lt.mpr h), max_eq_left h]
  · rw [if_pos h, max_eq_right h.le]

/-- The inner loop of `compare_faces` folds the maximum over the matching
similarities of one license encoding against every user encoding. -/
lemma compare_inner_eq {α : Type} (dist : α → α → ℚ) (a : α) (B : List α) :
    ∀ (init : ℚ),
      B.foldl
        (fun best ue =>
          if dist a ue ≤ 3/5 then
            (if max 0 (1 - dist a ue) > best then max 0 (1 - dist a ue)
             else best)
          else best) init
      = (pairSims dist a B).foldl max init := by
  induction B with
  | nil => intro init; rfl
  | cons b B ih =>
    intro init
    simp only [List.foldl_cons]
    by_cases h : dist a b ≤ 3/5
    · rw [if_pos h, ifGtMax,
        show pairSims dist a (b :: B)
            = max 0 (1 - dist a b) :: pairSims dist a B from by
          rw [pairSims, if_pos h],
        List.foldl_cons]
      exact ih _
    · rw [if_neg h,
        show pairSims dist a (b :: B) = pairSims dist a B from by
          rw [pairSims, if_neg h]]
      exact ih _

/-- The nested loops of `compare_faces` fold the maximum over the matching
similarities of every pair. -/
lemma compare_outer_eq {α : Type} (dist : α → α → ℚ) (B : List α) :
    ∀ (A : List α) (init : ℚ),
      A.foldl
        (fun best le => B.foldl
          (fun best ue =>
            if dist le ue ≤ 3/5 then
              (if max 0 (1 - dist le ue) > best then max 0 (1 - dist le ue)
               else best)
            else best) best) init
      = (matchSims dist A B).foldl max init := by
  intro A
  induction A with
  | nil => intro init; rfl
  | cons a A ih =>
    intro init
    simp only [List.foldl_cons, matchSims, List.foldl_append]
    rw [compare_inner_eq dist a B init]
    exact ih _

/-- Against an empty second set there are no matching pairs. -/
lemma matchSims_nil {α : Type} (dist : α → α → ℚ) :
    ∀ (A : List α), matchSims dist A [] = [] := by
  intro A
  induction A with
  | nil => rfl
  | cons a A ih =>
    simp only [matchSims, pairSims, List.nil_append]
    exact ih

/-- `listStartsWith` decides the prefix relation. -/
lemma listStartsWith_iff :
    ∀ (p s : List Char), listStartsWith p s = true ↔ ∃ r, s = p ++ r := by
  intro p
  induction p with
  | nil => intro s; simp [listStartsWith]
  | cons c ps ih =>
    intro s
    cases s with
    | nil => simp [listStartsWith]
    | cons d cs =>
      simp only [listStartsWith, Bool.and_eq_true, beq_iff_eq, ih,
        List.cons_append, List.cons.injEq]
      constructor
      · rintro ⟨h1, r, h2⟩
        exact ⟨r, h1.symm, h2⟩
      · rintro ⟨r, h1, h2⟩
        exact ⟨h1.symm, r, h2⟩

/-- `strContains` decides the substring relation. -/
lemma strContains_iff (pat : List Char) :
    ∀ (hay : List Char),
      strContains pat hay = true ↔ ∃ l r, hay = l ++ pat ++ r := by
  intro hay
  induction hay with
  | nil =>
    simp only [strContains, listStartsWith_iff]
    constructor
    · rintro ⟨r, h⟩
      exact ⟨[], r, by simpa using h⟩
    · rintro ⟨l, r, h⟩
      obtain ⟨hlp, hr⟩ := List.append_eq_nil.mp h.symm
      obtain ⟨hl, hp⟩ := List.append_eq_nil.mp hlp
      exact ⟨[], by simp [hp]⟩
  | cons c rest ih =>
    simp only [strContains, Bool.or_eq_true, listStartsWith_iff, ih]
    constructor
    · rintro (⟨r, h⟩ | ⟨l, r, h⟩)
      · exact ⟨[], r, by simpa using h⟩
      · exact ⟨c :: l, r, by simp [h]⟩
    · rintro ⟨l, r, h⟩
      cases l with
      | nil => exact Or.inl ⟨r, by simpa using h⟩
      | cons d ls =>
        simp only [List.cons_append, List.cons.injEq] at h
        exact Or.inr ⟨ls, r, h.2⟩

/-- The scorer evaluated on the empty text with no document flag and zero
similarity. -/
lemma score_empty_eq : calculate_safety_score [] false 0 = 20 := by
  have hf : faceBase false 0 = 20 := by norm_num [faceBase]
  unfold calculate_safety_score
  rw [hf]
  decide

/-! ## Claims -/

/-- Claim C1: for every text, document flag and similarity in the unit
interval, the Stage 1 face-match contribution of the Safety Scorer is given
by the mutually exclusive tier table evaluated high-to-low with first match
winning: above 0.4 it is 70 plus the floor of 20 times the similarity, in
the range (0.2, 0.4] it is 50 plus the floor of 15 times the similarity,
and at or below 0.2 it is 40 for a document and 20 otherwise, with no
similarity bonus. -/
theorem c1_stage1_tiers (text : List Char) (d : Bool) (s : ℚ)
    (h0 : 0 ≤ s) (h1 : s ≤ 1) :
    calculate_safety_score text d s =
      max (min (faceBaseSpec d s + keywordPoints (pyLower text)
        + textQualityPoints text + confidencePoints (pyLower text)) 100) 0 := by
  have he : faceBase d s = faceBaseSpec d s := by
    unfold faceBase faceBaseSpec
    rcases lt_or_le (2/5 : ℚ) s with h2 | h2
    · rw [if_pos h2, if_pos h2]
    · rw [if_neg (not_lt.mpr h2), if_neg (not_lt.mpr h2)]
      rcases lt_or_le (1/5 : ℚ) s with h3 | h3
      · rw [if_pos h3, if_pos (⟨h3, h2⟩ : (1 : ℚ)/5 < s ∧ s ≤ 2/5)]
      · rw [if_neg (not_lt.mpr h3),
          if_neg (show ¬((1 : ℚ)/5 < s ∧ s ≤ 2/5) from
            fun hc => absurd hc.1 (not_lt.mpr h3))]
  unfold calculate_safety_score
  rw [he]

/-- Witness for Claim C1 at similarity 3/10 on the empty text. -/
theorem c1_stage1_tiers_witness :
    calculate_safety_score [] true (3/10) =
      max (min (faceBaseSpec true (3/10) + keywordPoints (pyLower [])
        + textQualityPoints [] + confidencePoints (pyLower [])) 100) 0 :=
  c1_stage1_tiers [] true (3/10) (by norm_num) (by norm_num)

/-- Claim C2: the status and confidence mappers are total monotone
non-decreasing functions of the score and partition the score range into
six bands with the common breakpoints 10, 25, 40, 60 and 80, with the
paired labels claimed for each band. -/
theorem c2_status_confidence_bands (x y : ℤ) (hxy : x ≤ y) :
    (statusRank (get_safety_status x) ≤ statusRank (get_safety_status y)
      ∧ confidenceRank (get_confidence_level x)
          ≤ confidenceRank (get_confidence_level y))
    ∧ (80 ≤ x →
        get_safety_status x = "very_safe"
          ∧ get_confidence_level x = "very_high")
    ∧ (60 ≤ x ∧ x ≤ 79 →
        get_safety_status x = "safe" ∧ get_confidence_level x = "high")
    ∧ (40 ≤ x ∧ x ≤ 59 →
        get_safety_status x = "moderate" ∧ get_confidence_level x = "medium")
    ∧ (25 ≤ x ∧ x ≤ 39 →
        get_safety_status x = "risky" ∧ get_confidence_level x = "low")
    ∧ (10 ≤ x ∧ x ≤ 24 →
        get_safety_status x = "unsafe" ∧ get_confidence_level x = "very_low")
    ∧ (0 ≤ x ∧ x ≤ 9 →
        get_safety_status x = "rejected"
          ∧ get_confidence_level x = "minimal") := by
  refine ⟨⟨?_, ?_⟩, ?_, ?_, ?_, ?_, ?_, ?_⟩
  · rw [statusRank_get, statusRank_get]
    split_ifs <;> omega
  · rw [confidenceRank_get, confidenceRank_get]
    split_ifs <;> omega
  · intro h
    unfold get_safety_status get_confidence_level
    refine ⟨?_, ?_⟩ <;> (split_ifs <;> first | rfl | (exfalso; omega))
  · rintro ⟨h1, h2⟩
    unfold get_safety_status get_confidence_level
    refine ⟨?_, ?_⟩ <;> (split_ifs <;> first | rfl | (exfalso; omega))
  · rintro ⟨h1, h2⟩
    unfold get_safety_status get_confidence_level
    refine ⟨?_, ?_⟩ <;> (split_ifs <;> first | rfl | (exfalso; omega))
  · rintro ⟨h1, h2⟩
    unfold get_safety_status get_confidence_level
    refine ⟨?_, ?_⟩ <;> (split_ifs <;> first | rfl | (exfalso; omega))
  · rintro ⟨h1, h2⟩
    unfold get_safety_status get_confidence_level
    refine ⟨?_, ?_⟩ <;> (split_ifs <;> first | rfl | (exfalso; omega))
  · rintro ⟨h1, h2⟩
    unfold get_safety_status get_confidence_level
    refine ⟨?_, ?_⟩ <;> (split_ifs <;> first | rfl | (exfalso; omega))

/-- Witness for Claim C2 at the scores 30 and 85. -/
theorem c2_status_confidence_bands_witness :
    (statusRank (get_safety_status 30) ≤ statusRank (get_safety_status 85)
      ∧ confidenceRank (get_confidence_level 30)
          ≤ confidenceRank (get_confidence_level 85))
    ∧ (80 ≤ (30 : ℤ) →
        get_safety_status 30 = "very_safe"
          ∧ get_confidence_level 30 = "very_high")
    ∧ (60 ≤ (30 : ℤ) ∧ (30 : ℤ) ≤ 79 →
        get_safety_status 30 = "safe" ∧ get_confidence_level 30 = "high")
    ∧ (40 ≤ (30 : ℤ) ∧ (30 : ℤ) ≤ 59 →
        get_safety_status 30 = "moderate" ∧ get_confidence_level 30 = "medium")
    ∧ (25 ≤ (30 : ℤ) ∧ (30 : ℤ) ≤ 39 →
        get_safety_status 30 = "risky" ∧ get_confidence_level 30 = "low")
    ∧ (10 ≤ (30 : ℤ) ∧ (30 : ℤ) ≤ 24 →
        get_safety_status 30 = "unsafe" ∧ get_confidence_level 30 = "very_low")
    ∧ (0 ≤ (30 : ℤ) ∧ (30 : ℤ) ≤ 9 →
        get_safety_status 30 = "rejected"
          ∧ get_confidence_level 30 = "minimal") :=
  c2_status_confidence_bands 30 85 (by norm_num)

/-- Claim C3: compare_faces returns 0 when either encoding set is empty and
otherwise returns the fold of the maximum, starting from 0, over the
similarities max(0, 1 - distance) of every pair of encodings whose distance
is within the tolerance 0.6; when no pair is within tolerance the fold is
over the empty list, giving 0, and every pair is visited. -/
theorem c3_compare_faces_best_of_all_pairs {α : Type} (dist : α → α → ℚ)
    (A B : List α) :
    compare_faces dist A B = (matchSims dist A B).foldl max 0
    ∧ compare_faces dist ([] : List α) B = 0
    ∧ compare_faces dist A ([] : List α) = 0 := by
  refine ⟨?_, rfl, by cases A <;> rfl⟩
  cases A with
  | nil => rfl
  | cons a As =>
    cases B with
    | nil =>
      rw [matchSims_nil]
      rfl
    | cons b Bs => exact compare_outer_eq dist (b :: Bs) (a :: As) 0

/-- Claim C4 counterexample: on empty text, no document flag and zero
similarity the pipeline does not report the rejected status or the minimal
confidence. -/
theorem c4_empty_input_counterexample :
    get_safety_status (calculate_safety_score [] false 0) ≠ "rejected"
    ∧ get_confidence_level (calculate_safety_score [] false 0) ≠ "minimal" := by
  rw [score_empty_eq]
  exact ⟨by decide, by decide⟩

/-- Claim C4 amended: on empty text, no document flag and zero similarity
the pipeline produces the score 20, the status unsafe and the confidence
very_low. -/
theorem c4_empty_input_amended :
    calculate_safety_score [] false 0 = 20
    ∧ get_safety_status (calculate_safety_score [] false 0) = "unsafe"
    ∧ get_confidence_level (calculate_safety_score [] false 0) = "very_low" := by
  rw [score_empty_eq]
  exact ⟨rfl, by decide, by decide⟩

/-- Claim C5: for fixed text and document flag the safety score is monotone
non-decreasing in the similarity over the unit interval, with no backward
jump when crossing the tier boundaries 0.2 and 0.4. -/
theorem c5_score_monotone (text : List Char) (d : Bool) (s1 s2 : ℚ)
    (h0 : 0 ≤ s1) (h12 : s1 ≤ s2) (h1 : s2 ≤ 1) :
    calculate_safety_score text d s1 ≤ calculate_safety_score text d s2 := by
  have hm := faceBase_mono d s1 s2 h12
  unfold calculate_safety_score
  exact max_le_max (min_le_min (by linarith) (le_refl _)) (le_refl _)

/-- Witness for Claim C5 crossing both tier boundaries from 1/10 to 1/2. -/
theorem c5_score_monotone_witness :
    calculate_safety_score [] false (1/10)
      ≤ calculate_safety_score [] false (1/2) :=
  c5_score_monotone [] false (1/10) (1/2) (by norm_num) (by norm_num)
    (by norm_num)

/-- Claim C6: for every text, document flag and similarity value the safety
score is an integer between 0 and 100. -/
theorem c6_score_in_range (text : List Char) (d : Bool) (s : ℚ) :
    0 ≤ calculate_safety_score text d s
    ∧ calculate_safety_score text d s ≤ 100 := by
  unfold calculate_safety_score
  constructor
  · exact le_max_right _ _
  · exact max_le (min_le_right _ _) (by norm_num)

/-- Claim C7: the document-plausibility classifier returns true exactly
when one of the seven fixed keywords occurs as a substring of the
lower-cased text, and returns false on the empty string. -/
theorem c7_is_document_iff (text : List Char) :
    (is_document text = true ↔
      ∃ kw ∈ ocr_license_keywords, ∃ l r, pyLower text = l ++ kw ++ r)
    ∧ is_document [] = false := by
  constructor
  · unfold is_document
    rw [List.any_eq_true]
    constructor
    · rintro ⟨k, hk, hc⟩
      exact ⟨k, hk, (strContains_iff k (pyLower text)).mp hc⟩
    · rintro ⟨k, hk, h⟩
      exact ⟨k, hk, (strContains_iff k (pyLower text)).mpr h⟩
  · decide

/-- Claim C8 counterexample: the Scenario B literal matches only five of
the listed keywords, so the keyword stage earns 8 points, not 13. -/
theorem c8_scenario_b_counterexample :
    keywordPoints (pyLower scenarioBText) ≠ 13 := by decide

/-- Claim C8 amended: on the Scenario B literal with document flag true and
zero similarity the keyword stage earns 8 points (driver 2, license 2,
state 1, dmv 2, department 1; the keywords id, identification, motor,
vehicle and card are absent), the text-quality stage earns 1 point for the
stripped length above 20, the confidence stage earns 0, and the final score
is 40 + 8 + 1 = 49. -/
theorem c8_scenario_b_amended :
    keywordPoints (pyLower scenarioBText) = 8
    ∧ textQualityPoints scenarioBText = 1
    ∧ confidencePoints (pyLower scenarioBText) = 0
    ∧ calculate_safety_score scenarioBText true 0 = 49 := by
  have hf : faceBase true 0 = 40 := by norm_num [faceBase]
  refine ⟨by decide, by decide, by decide, ?_⟩
  unfold calculate_safety_score
  rw [hf]
  decide

/-- Claim C9 (code bug): on a request whose recognized text is empty, whose
document flag is false and whose similarity is 0 the response breakdown
components sum to 55 while the reported safety score is 20, so the
breakdown does not reflect the sub-totals the scorer used. -/
theorem c9_breakdown_mismatch :
    score_breakdown_total [] false 0 = 55
    ∧ calculate_safety_score [] false 0 = 20
    ∧ score_breakdown_total [] false 0 ≠ calculate_safety_score [] false 0 := by
  have hb : score_breakdown_total [] false 0 = 55 := by
    have hm : breakdown_face_match_score 0 = 0 := by
      norm_num [breakdown_face_match_score]
    unfold score_breakdown_total
    rw [hm]
    decide
  rw [hb, score_empty_eq]
  exact ⟨rfl, rfl, by decide⟩

/-- Claim C10: for every text, document flag and similarity in the unit
interval the scorer returns at least 20, so the rejected status and the
minimal confidence are unreachable from any scorer output. -/
theorem c10_score_at_least_20 (text : List Char) (d : Bool) (s : ℚ)
    (h0 : 0 ≤ s) (h1 : s ≤ 1) :
    20 ≤ calculate_safety_score text d s
    ∧ get_safety_status (calculate_safety_score text d s) ≠ "rejected"
    ∧ get_confidence_level (calculate_safety_score text d s) ≠ "minimal" := by
  have hb := faceBase_ge d s
  have hk := keywordPoints_nonneg (pyLower text)
  have hq := textQualityPoints_nonneg text
  have hcf := confidencePoints_nonneg (pyLower text)
  have h20 : 20 ≤ calculate_safety_score text d s := by
    unfold calculate_safety_score
    have hmin : (20 : ℤ) ≤ min (faceBase d s + keywordPoints (pyLower text)
        + textQualityPoints text + confidencePoints (pyLower text)) 100 :=
      le_min (by linarith) (by norm_num)
    exact le_trans hmin (le_max_left _ _)
  exact ⟨h20, status_ne_rejected _ (by linarith),
    confidence_ne_minimal _ (by linarith)⟩

/-- Witness for Claim C10 on the empty text with zero similarity. -/
theorem c10_score_at_least_20_witness :
    20 ≤ calculate_safety_score [] false 0
    ∧ get_safety_status (calculate_safety_score [] false 0) ≠ "rejected"
    ∧ get_confidence_level (calculate_safety_score [] false 0) ≠ "minimal" :=
  c10_score_at_least_20 [] false 0 (by norm_num) (by norm_num)
